import Mathlib

/-!
Shallow embedding of the Resolution Engine of `react-native-check-new-archi`
(`src/index.ts` together with `src/types.ts`).  Every network request in the
source goes through `fetchWithRetry`; the outcome a call site observes when
awaiting it (a parsed value, or a rejection -- a fetch-phase failure surfaced
after the retry loop, or a JSON parse rejection escaping it) is modelled by
oracle functions returning `Except String` values.  `fetchWithRetry` itself is
embedded separately at single-attempt granularity, where the two kinds of
per-attempt failure stay distinct.
-/

namespace RNCheck

/-! ## Data model (src/types.ts) -/

/-- One record of the directory response (`LibraryData.libraries[i]`).
`githubNewArchitecture` models the nested optional `github?.newArchitecture`;
it is `none` when `github` is absent or `github.newArchitecture` is absent. -/
structure DirectoryLib where
  expoGo : Option Bool
  newArchitecture : Option Bool
  githubNewArchitecture : Option Bool
deriving DecidableEq

/-- `LibraryData` from src/types.ts: the directory response body. -/
structure LibraryData where
  libraries : Option (List DirectoryLib)
deriving DecidableEq

/-- `PackageJson` from src/types.ts, restricted to what the code reads:
the KEY SETS of the `dependencies` and `devDependencies` records
(`Object.keys`); `none` models an absent field. -/
structure PackageJson where
  dependencies : Option (List String)
  devDependencies : Option (List String)
deriving DecidableEq

/-- `NpmRegistryResponse` from src/types.ts; `repositoryUrl` models the
optional chain `data?.repository?.url` (`none` when any link is absent). -/
structure NpmRegistryResponse where
  repositoryUrl : Option String
deriving DecidableEq

/-- `Counts` from src/types.ts. -/
structure Counts where
  supported : Nat
  notSupported : Nat
  notFound : Nat
deriving DecidableEq

/-- `CheckResult` from src/types.ts: exactly the four integer fields the
exported `checkLibraries` returns (`{ total, ...counts }`). -/
structure CheckResult where
  total : Nat
  supported : Nat
  notSupported : Nat
  notFound : Nat
deriving DecidableEq

/-- The keys of `STATUS_MAP` / `Counts` in src/index.ts: the terminal verdict
assigned to one library. -/
inductive Status where
  | supported
  | notSupported
  | notFound
deriving DecidableEq

/-- The keys of `RESULT_CATEGORIES` in src/index.ts: outcome of `checkIfFullJS`. -/
inductive FullJsResult where
  | fullJs
  | native
  | notFound
deriving DecidableEq

/-- `RESULT_CATEGORIES` from src/index.ts lines 34-38. -/
def RESULT_CATEGORIES : FullJsResult → Status
  | .fullJs => .supported
  | .native => .notSupported
  | .notFound => .notFound

/-- `IGNORED_LIBRARIES` from src/index.ts line 40. -/
def IGNORED_LIBRARIES : List String := ["react-native"]

/-- `FETCH_TIMEOUT` from src/index.ts line 41 (milliseconds). -/
def FETCH_TIMEOUT : Nat := 10 * 1000

/-- `BRANCHES` from src/index.ts line 42. -/
def BRANCHES : List String := ["master", "main"]

/-- The internal `results` record of `checkLibraries`
(`Record<keyof Counts, string[]>`): one name list per status. -/
structure Results where
  supported : List String
  notSupported : List String
  notFound : List String
deriving DecidableEq

/-! ## Bounded fetcher (src/index.ts lines 76-97)

`fetchWithTimeout` races the request against `FETCH_TIMEOUT`.  One loop
iteration of `fetchWithRetry` awaits `fetchWithTimeout` and checks
`response.ok` inside the `try`, then executes `return response.json()`
WITHOUT awaiting it: the returned json promise settles the outer promise
directly, so its rejection bypasses the `catch` and is never retried.  An
attempt therefore has three outcomes, kept distinct below. -/

/-- The outcome of one loop iteration of `fetchWithRetry`: `fetchError` is a
failure thrown inside the `try` (timeout, transport failure, or the non-ok
HTTP status thrown on line 90) and lands in the `catch`; `parseError` is a
rejection of the un-awaited `return response.json()`, which escapes the
`try`/`catch`; `success` is a parsed value. -/
inductive AttemptOutcome (T : Type) where
  | fetchError (e : String)
  | parseError (e : String)
  | success (v : T)
deriving DecidableEq

/-- One step per remaining iteration of the `for` loop of `fetchWithRetry`:
`i` is the current loop index, the second argument is `retries - i` (the
number of iterations still to run).  `rem = 0` models loop exit, reaching
`throw new Error("Max retries reached")`.  Inside an iteration a `success`
resolves at once; a `parseError` also ends the function at once -- the
rejection of the un-awaited json promise is not caught, so it aborts with no
further attempt; a `fetchError` is caught and rethrown exactly when
`i === retries - 1`, otherwise the next iteration runs. -/
def fetchWithRetryAux (attempt : Nat → AttemptOutcome T) : Nat → Nat → Except String T
  | _, 0 => .error "Max retries reached"
  | i, rem + 1 =>
    match attempt i with
    | .success v => .ok v
    | .parseError e => .error e
    | .fetchError e => if rem = 0 then .error e else fetchWithRetryAux attempt (i + 1) rem

/-- `fetchWithRetry` from src/index.ts lines 85-97 (the call sites use the
default `retries = 3`). -/
def fetchWithRetry (attempt : Nat → AttemptOutcome T) (retries : Nat) : Except String T :=
  fetchWithRetryAux attempt 0 retries

/-! ## Per-library pipeline (src/index.ts lines 139-215)

The three outbound requests of one library's pipeline -- directory search,
npm-registry lookup, raw `package.json` fetch for a branch -- are modelled by
the post-`fetchWithRetry` outcome oracles below. -/

/-- Outcomes of the three kinds of requests, as observed by the call sites
awaiting `fetchWithRetry`: an `.error` is any rejection of that awaited
promise -- a fetch-phase failure (timeout, transport failure, non-ok HTTP
status) surfaced after the retry loop, or a JSON parse rejection escaping it
-- and every call site catches both the same way. -/
structure NetworkEnv where
  directory : String → Except String LibraryData
  registry : String → Except String NpmRegistryResponse
  rawManifest : String → String → Except String PackageJson

/-- One outbound request, for recording which services a pipeline touches. -/
inductive ServiceCall where
  | directory (lib : String)
  | registry (lib : String)
  | rawManifest (repoUrl branch : String)
deriving DecidableEq

/-- The normalisation `url.replace(/^git\+|\.git$/g, "")` in
`getGitHubRepoUrl`: strip one leading `git+` and one trailing `.git`
(the two anchored alternatives of the regex). -/
def stripGitAffixes (url : String) : String :=
  let l0 := url.data
  let l1 := if List.isPrefixOf "git+".data l0 then l0.drop 4 else l0
  let l2 := if List.isSuffixOf ".git".data l1 then l1.take (l1.length - 4) else l1
  ⟨l2⟩

/-- `getGitHubRepoUrl` from src/index.ts lines 139-151: on any fetch error the
catch block logs and returns `null`; otherwise the optional chain yields the
normalised repository url or `null`. -/
def getGitHubRepoUrl (env : NetworkEnv) (libraryName : String) : Option String :=
  match env.registry libraryName with
  | .error _ => none
  | .ok data =>
    match data.repositoryUrl with
    | none => none
    | some url => some (stripGitAffixes url)

/-- `dep.includes("react-native")` on a dependency key: contiguous substring
test on the character list. -/
def strContains (s pat : String) : Bool :=
  s.data.tails.any (fun t => pat.data.isPrefixOf t)

/-- The `hasNativeDeps` test inside `checkIfFullJS` (src/index.ts lines
165-168): union of `dependencies` and `devDependencies` key sets, `some` key
containing the marker `"react-native"`. -/
def hasNativeDeps (pj : PackageJson) : Bool :=
  (pj.dependencies.getD [] ++ pj.devDependencies.getD []).any
    (fun dep => strContains dep "react-native")

/-- The `for (const branch of BRANCHES)` loop of `checkIfFullJS` (src/index.ts
lines 156-173), instrumented with the list of branches actually attempted, in
order.  A successful fetch classifies and exits the loop; a failed fetch is
swallowed by the empty `catch {}` and the next branch is tried; an exhausted
list returns `"notFound"`. -/
def checkIfFullJSAux (env : NetworkEnv) (repoUrl : String) :
    List String → FullJsResult × List String
  | [] => (.notFound, [])
  | b :: rest =>
    match env.rawManifest repoUrl b with
    | .ok pj => (if hasNativeDeps pj then .native else .fullJs, [b])
    | .error _ =>
      let r := checkIfFullJSAux env repoUrl rest
      (r.1, b :: r.2)

/-- `checkIfFullJS` from src/index.ts lines 153-174. -/
def checkIfFullJS (env : NetworkEnv) (repoUrl : String) : FullJsResult :=
  (checkIfFullJSAux env repoUrl BRANCHES).1

/-- The branches `checkIfFullJS` attempts, in the order it attempts them. -/
def branchesTried (env : NetworkEnv) (repoUrl : String) : List String :=
  (checkIfFullJSAux env repoUrl BRANCHES).2

/-- The verdict taken from the first directory record (src/index.ts lines
192-196): `expoGo || newArchitecture || github?.newArchitecture`, with an
absent field falsy. -/
def directoryVerdict (rec : DirectoryLib) : Status :=
  if rec.expoGo.getD false || rec.newArchitecture.getD false
      || rec.githubNewArchitecture.getD false
  then .supported else .notSupported

/-- The fallback arm of `checkLibrary` (src/index.ts lines 197-204), taken
when `directoryData.libraries?.length` is falsy: `getGitHubRepoUrl`, the
`if (!repoUrl)` guard (falsy for both `null` and the empty string), then
`checkIfFullJS` mapped through `RESULT_CATEGORIES`.  The second component
records the outbound requests made, in order. -/
def fallbackStatus (env : NetworkEnv) (lib : String) : Status × List ServiceCall :=
  match getGitHubRepoUrl env lib with
  | none => (.notFound, [.directory lib, .registry lib])
  | some repoUrl =>
    if repoUrl = "" then (.notFound, [.directory lib, .registry lib])
    else
      let r := checkIfFullJSAux env repoUrl BRANCHES
      (RESULT_CATEGORIES r.1,
        [.directory lib, .registry lib] ++ r.2.map (ServiceCall.rawManifest repoUrl))

/-- The guard `directoryData.libraries?.length` with the subsequent
`directoryData.libraries[0]` (src/index.ts lines 191-192): the first record
when the array is present and non-empty, `none` otherwise. -/
def firstRecord (dd : LibraryData) : Option DirectoryLib :=
  match dd.libraries with
  | some (first :: _) => some first
  | _ => none

/-- The verdict of `checkLibrary` (src/index.ts lines 176-215) for one
library, with the trace of outbound requests.  The directory fetch is the only
statement of the `try` block that can throw; the outer catch maps any such
error to the `notFound` bucket.  A non-empty `libraries` array is judged by
`directoryVerdict` on its first record; an absent or empty array falls through
to `fallbackStatus`. -/
def checkLibraryStatus (env : NetworkEnv) (lib : String) : Status × List ServiceCall :=
  match env.directory lib with
  | .error _ => (.notFound, [.directory lib])
  | .ok directoryData =>
    match firstRecord directoryData with
    | some first => (directoryVerdict first, [.directory lib])
    | none => fallbackStatus env lib

/-- The terminal status `checkLibrary` assigns to one library. -/
def statusOf (env : NetworkEnv) (lib : String) : Status :=
  (checkLibraryStatus env lib).1

/-- `counts[status]++` (src/index.ts line 207). -/
def bumpCount (c : Counts) : Status → Counts
  | .supported => { c with supported := c.supported + 1 }
  | .notSupported => { c with notSupported := c.notSupported + 1 }
  | .notFound => { c with notFound := c.notFound + 1 }

/-- `results[status].push(lib)` (src/index.ts line 208). -/
def pushResult (r : Results) (lib : String) : Status → Results
  | .supported => { r with supported := r.supported ++ [lib] }
  | .notSupported => { r with notSupported := r.notSupported ++ [lib] }
  | .notFound => { r with notFound := r.notFound ++ [lib] }

/-- The state update of `checkLibrary`: assign the verdict, bump its counter
and append the name to its list.  Both updates use the same single status. -/
def checkLibrary (env : NetworkEnv) (lib : String) (counts : Counts) (results : Results) :
    Counts × Results :=
  (bumpCount counts (statusOf env lib), pushResult results lib (statusOf env lib))

/-! ## Orchestrator (src/index.ts lines 218-267)

`checkLibraries` fans out one `checkLibrary` task per name via `Promise.all`;
each task performs one atomic aggregate update (`counts[status]++` and
`results[status].push`) on the single-threaded event loop.  The fold below
fixes one completion order; counts and list membership are order-independent,
which is all the claims use. -/

/-- The parsed value of `JSON.parse(readFileSync(path))`: whether it is a
truthy `object`, and the key sets under its `dependencies` and
`devDependencies` keys (`none` models an absent key). -/
structure ParsedData where
  isObject : Bool
  dependencies : Option (List String)
  devDependencies : Option (List String)
deriving DecidableEq

/-- `isValidPackageJson` from src/index.ts lines 71-73:
`!!data && typeof data === "object" && "dependencies" in data`. -/
def isValidPackageJson (d : ParsedData) : Bool :=
  d.isObject && d.dependencies.isSome

/-- The library list of src/index.ts lines 229-231:
`Object.keys(rawData.dependencies ?? {}).filter(lib => !IGNORED_LIBRARIES.includes(lib))`. -/
def filteredLibs (d : ParsedData) : List String :=
  (d.dependencies.getD []).filter (fun lib => ! IGNORED_LIBRARIES.contains lib)

/-- The aggregation of all per-library tasks starting from the zero `counts`
and empty `results` (src/index.ts lines 236-253). -/
def runChecks (env : NetworkEnv) (libs : List String) : Counts × Results :=
  libs.foldl (fun cr lib => checkLibrary env lib cr.1 cr.2) (⟨0, 0, 0⟩, ⟨[], [], []⟩)

/-- The internal `results` record after a run of `checkLibraries`. -/
def resultsOf (env : NetworkEnv) (d : ParsedData) : Results :=
  (runChecks env (filteredLibs d)).2

/-- All names classified in a run, whatever their bucket. -/
def allNames (r : Results) : List String :=
  r.supported ++ r.notSupported ++ r.notFound

/-- `checkLibraries` from src/index.ts lines 218-267: reject an invalid parsed
manifest with `Invalid package.json format`; otherwise classify the filtered
library list and return `{ total: libraries.length, ...counts }` -- the
`CheckResult` carries the four integers only, `results` stays internal. -/
def checkLibraries (env : NetworkEnv) (d : ParsedData) : Except String CheckResult :=
  if isValidPackageJson d then
    let libraries := filteredLibs d
    let counts := (runChecks env libraries).1
    .ok ⟨libraries.length, counts.supported, counts.notSupported, counts.notFound⟩
  else
    .error "Invalid package.json format"

/-- Modelled from the spec: the `ResolutionResult` record of spec section 6,
`{ total, supported, notSupported, notFound, supportedNames,
notSupportedNames, notFoundNames }` -- stated only to compare with the
source's `CheckResult`, which has no name-list fields. -/
structure ResolutionResult where
  total : Nat
  supported : Nat
  notSupported : Nat
  notFound : Nat
  supportedNames : List String
  notSupportedNames : List String
  notFoundNames : List String
deriving DecidableEq

/-! ## Concrete inputs used by witnesses and counterexamples -/

/-- All three services fail (e.g. no network). -/
def envAllFail : NetworkEnv :=
  ⟨fun _ => .error "Timeout", fun _ => .error "Timeout", fun _ _ => .error "Timeout"⟩

/-- The directory answers every search with one record whose `expoGo` is true. -/
def envDirYes : NetworkEnv :=
  ⟨fun _ => .ok ⟨some [⟨some true, none, none⟩]⟩,
   fun _ => .error "Timeout", fun _ _ => .error "Timeout"⟩

/-- The directory answers with one record carrying none of the three flags. -/
def envDirNoFlags : NetworkEnv :=
  ⟨fun _ => .ok ⟨some [⟨none, none, none⟩]⟩,
   fun _ => .error "Timeout", fun _ _ => .error "Timeout"⟩

/-- A repository url as the npm registry would give it. -/
def repoScenario : String := "https://github.com/acme/lib"

/-- Spec section 8, scenario B: empty directory answer, registry gives a
repository, the `master` manifest fetch fails, the `main` manifest has the
single dependency key `lodash`. -/
def envScenarioB : NetworkEnv :=
  ⟨fun _ => .ok ⟨some []⟩, fun _ => .ok ⟨some repoScenario⟩,
   fun _ b => if b = "main" then .ok ⟨some ["lodash"], none⟩
              else .error "HTTP error! status: 404"⟩

/-- Spec section 8, scenario C: absent directory record array, registry gives
a repository, the fetched manifest has the dependency key
`react-native-camera`. -/
def envScenarioC : NetworkEnv :=
  ⟨fun _ => .ok ⟨none⟩, fun _ => .ok ⟨some repoScenario⟩,
   fun _ _ => .ok ⟨some ["react-native-camera"], none⟩⟩

/-- A parsed manifest whose only dependency key is `alpha`. -/
def dataAlpha : ParsedData := ⟨true, some ["alpha"], none⟩

/-- A parsed manifest whose only dependency key is `beta`. -/
def dataBeta : ParsedData := ⟨true, some ["beta"], none⟩

/-- A parsed manifest listing both `react-native` and `axios`. -/
def dataWithReactNative : ParsedData := ⟨true, some ["react-native", "axios"], none⟩

/-- A valid JSON object that has `devDependencies` but no `dependencies` key. -/
def dataDevOnly : ParsedData := ⟨true, none, some ["lodash"]⟩

/-- Same directory oracle as `envDirYes` but with registry and raw-manifest
oracles that would answer (used to show they are not consulted). -/
def envDirYesAlt : NetworkEnv :=
  ⟨envDirYes.directory, fun _ => .ok ⟨some repoScenario⟩,
   fun _ _ => .ok ⟨some ["react-native-fs"], none⟩⟩

/-- An attempt oracle with two caught fetch-phase failures, then a success. -/
def attemptsFailTwice : Nat → AttemptOutcome Nat :=
  fun i => if i < 2 then .fetchError "Timeout" else .success 7

/-- An attempt oracle whose first attempt fails while parsing the response
body and whose second attempt would succeed. -/
def attemptsParseFailThenOk : Nat → AttemptOutcome Nat :=
  fun i => if i = 0 then .parseError "Unexpected token" else .success 7

/-! ## Helper lemmas -/

/-- If every candidate branch fails, the branch loop returns `notFound` after
trying every branch in order. -/
theorem checkIfFullJSAux_allFail (env : NetworkEnv) (url : String) (bs : List String)
    (h : ∀ b ∈ bs, ∃ e, env.rawManifest url b = Except.error e) :
    checkIfFullJSAux env url bs = (FullJsResult.notFound, bs) := by
  induction bs with
  | nil => rfl
  | cons b rest ih =>
    obtain ⟨e, he⟩ := h b (by simp)
    simp [checkIfFullJSAux, he, ih (fun x hx => h x (by simp [hx]))]

/-- The fallback path always queries the registry. -/
theorem registry_in_fallback (env : NetworkEnv) (lib : String) :
    ServiceCall.registry lib ∈ (fallbackStatus env lib).2 := by
  unfold fallbackStatus
  cases h : getGitHubRepoUrl env lib with
  | none => simp
  | some u =>
    by_cases hu : u = "" <;> simp [hu]

/-- An ok directory answer whose record array is absent or empty sends
`checkLibraryStatus` to the fallback path. -/
theorem checkLibraryStatus_fallback (env : NetworkEnv) (lib : String) (d : LibraryData)
    (hd : env.directory lib = Except.ok d) (hl : d.libraries.getD [] = []) :
    checkLibraryStatus env lib = fallbackStatus env lib := by
  unfold checkLibraryStatus
  rw [hd]
  cases h : d.libraries with
  | none => simp [firstRecord, h]
  | some l =>
    cases l with
    | nil => simp [firstRecord, h]
    | cons a as => rw [h] at hl; simp at hl

/-- An ok directory answer with a non-empty record array settles the verdict
from the first record, touching no other service. -/
theorem checkLibraryStatus_direct (env : NetworkEnv) (lib : String) (d : LibraryData)
    (first : DirectoryLib) (rest : List DirectoryLib)
    (hd : env.directory lib = Except.ok d) (hl : d.libraries = some (first :: rest)) :
    checkLibraryStatus env lib = (directoryVerdict first, [ServiceCall.directory lib]) := by
  unfold checkLibraryStatus
  rw [hd]
  simp [firstRecord, hl]

/-- Closed form of the aggregation fold from an arbitrary starting state. -/
theorem runChecks_go (env : NetworkEnv) (libs : List String) (c : Counts) (r : Results) :
    libs.foldl (fun cr lib => checkLibrary env lib cr.1 cr.2) (c, r) =
      (⟨c.supported + (libs.filter fun l => statusOf env l == Status.supported).length,
        c.notSupported + (libs.filter fun l => statusOf env l == Status.notSupported).length,
        c.notFound + (libs.filter fun l => statusOf env l == Status.notFound).length⟩,
       ⟨r.supported ++ (libs.filter fun l => statusOf env l == Status.supported),
        r.notSupported ++ (libs.filter fun l => statusOf env l == Status.notSupported),
        r.notFound ++ (libs.filter fun l => statusOf env l == Status.notFound)⟩) := by
  induction libs generalizing c r with
  | nil => simp
  | cons hd tl ih =>
    rw [List.foldl_cons, ih]
    cases hst : statusOf env hd <;>
      simp [checkLibrary, bumpCount, pushResult, hst, List.filter_cons] <;>
      omega

/-- Closed form of `runChecks`: each bucket is the corresponding filter of the
input list and each counter its length. -/
theorem runChecks_eq (env : NetworkEnv) (libs : List String) :
    runChecks env libs =
      (⟨(libs.filter fun l => statusOf env l == Status.supported).length,
        (libs.filter fun l => statusOf env l == Status.notSupported).length,
        (libs.filter fun l => statusOf env l == Status.notFound).length⟩,
       ⟨libs.filter fun l => statusOf env l == Status.supported,
        libs.filter fun l => statusOf env l == Status.notSupported,
        libs.filter fun l => statusOf env l == Status.notFound⟩) := by
  simpa [runChecks] using runChecks_go env libs ⟨0, 0, 0⟩ ⟨[], [], []⟩

/-- A valid parsed manifest makes `checkLibraries` return the ok record built
from the length of the filtered list and the run's three counters. -/
theorem checkLibraries_ok (env : NetworkEnv) (d : ParsedData)
    (h : isValidPackageJson d = true) :
    checkLibraries env d = Except.ok
      ⟨(filteredLibs d).length,
       (runChecks env (filteredLibs d)).1.supported,
       (runChecks env (filteredLibs d)).1.notSupported,
       (runChecks env (filteredLibs d)).1.notFound⟩ := by
  simp [checkLibraries, h]

/-- The three status filters of a list partition its length. -/
theorem length_filter_status (env : NetworkEnv) (libs : List String) :
    (libs.filter fun l => statusOf env l == Status.supported).length
      + (libs.filter fun l => statusOf env l == Status.notSupported).length
      + (libs.filter fun l => statusOf env l == Status.notFound).length
      = libs.length := by
  induction libs with
  | nil => rfl
  | cons hd tl ih =>
    cases hst : statusOf env hd <;> simp [List.filter_cons, hst] <;> omega

/-! ## Claim theorems -/

/-- C9: counterexample -- a JSON-parse failure is NOT a retried failure: with
a parse rejection on attempt 0 and an attempt 1 that would succeed, the
fetcher aborts at once with the parse error and never returns the later
success, because `return response.json()` is not awaited and its rejection
escapes the `try`/`catch` of the retry loop.  This refutes the claim that on
failure the fetcher retries up to 3 attempts and returns the first successful
parsed response. -/
theorem parse_failure_not_retried :
    fetchWithRetry attemptsParseFailThenOk 3 = Except.error "Unexpected token"
    ∧ attemptsParseFailThenOk 1 = AttemptOutcome.success 7
    ∧ fetchWithRetry attemptsParseFailThenOk 3 ≠ Except.ok 7 :=
  ⟨rfl, rfl, by simp [fetchWithRetry, fetchWithRetryAux, attemptsParseFailThenOk]⟩

/-- C9 (amended): with the call sites' `retries = 3`, the fetcher retries
only fetch-phase failures (timeout, transport failure, non-success HTTP
status) with no inter-attempt delay, returning the first attempt that parses
successfully; a JSON-parse failure on any attempt is never retried -- the
un-awaited `return response.json()` escapes the `try`/`catch`, so the fetcher
aborts immediately with that error; after the last attempt fails, or on any
parse failure, the caller gets an error, never a non-error value. -/
theorem fetchWithRetry_policy (T : Type) (attempt : Nat → AttemptOutcome T) :
    (∀ v, attempt 0 = AttemptOutcome.success v →
        fetchWithRetry attempt 3 = Except.ok v)
    ∧ (∀ e0 v, attempt 0 = AttemptOutcome.fetchError e0 →
        attempt 1 = AttemptOutcome.success v →
        fetchWithRetry attempt 3 = Except.ok v)
    ∧ (∀ e0 e1 v, attempt 0 = AttemptOutcome.fetchError e0 →
        attempt 1 = AttemptOutcome.fetchError e1 →
        attempt 2 = AttemptOutcome.success v →
        fetchWithRetry attempt 3 = Except.ok v)
    ∧ (∀ e0 e1 e2, attempt 0 = AttemptOutcome.fetchError e0 →
        attempt 1 = AttemptOutcome.fetchError e1 →
        attempt 2 = AttemptOutcome.fetchError e2 →
        fetchWithRetry attempt 3 = Except.error e2)
    ∧ (∀ e, attempt 0 = AttemptOutcome.parseError e →
        fetchWithRetry attempt 3 = Except.error e)
    ∧ (∀ e0 e, attempt 0 = AttemptOutcome.fetchError e0 →
        attempt 1 = AttemptOutcome.parseError e →
        fetchWithRetry attempt 3 = Except.error e)
    ∧ (∀ e0 e1 e, attempt 0 = AttemptOutcome.fetchError e0 →
        attempt 1 = AttemptOutcome.fetchError e1 →
        attempt 2 = AttemptOutcome.parseError e →
        fetchWithRetry attempt 3 = Except.error e) := by
  refine ⟨?_, ?_, ?_, ?_, ?_, ?_, ?_⟩ <;> intros <;>
    simp [fetchWithRetry, fetchWithRetryAux, *]

/-- Witness for `fetchWithRetry_policy`: two caught fetch-phase failures
followed by a success deliver the success, and an immediate parse failure
aborts with its error. -/
theorem fetchWithRetry_policy_witness :
    fetchWithRetry attemptsFailTwice 3 = Except.ok 7
    ∧ fetchWithRetry attemptsParseFailThenOk 3 = Except.error "Unexpected token" :=
  ⟨(fetchWithRetry_policy Nat attemptsFailTwice).2.2.1 "Timeout" "Timeout" 7 rfl rfl rfl,
   (fetchWithRetry_policy Nat attemptsParseFailThenOk).2.2.2.2.1 "Unexpected token" rfl⟩

/-- C10: whenever the parsed input is not a truthy object with a
`dependencies` key, `checkLibraries` fails with `Invalid package.json format`
and returns no result record at all. -/
theorem invalid_manifest_rejected (env : NetworkEnv) (d : ParsedData)
    (h : isValidPackageJson d = false) :
    checkLibraries env d = Except.error "Invalid package.json format"
    ∧ ∀ res, checkLibraries env d ≠ Except.ok res := by
  have herr : checkLibraries env d = Except.error "Invalid package.json format" := by
    simp [checkLibraries, h]
  exact ⟨herr, fun res hres => by rw [herr] at hres; cases hres⟩

/-- Witness for `invalid_manifest_rejected`: a valid JSON object carrying only
`devDependencies` is rejected. -/
theorem invalid_manifest_rejected_witness :
    isValidPackageJson dataDevOnly = false
    ∧ checkLibraries envAllFail dataDevOnly = Except.error "Invalid package.json format" :=
  ⟨rfl, (invalid_manifest_rejected envAllFail dataDevOnly rfl).1⟩

/-- C2: counterexample -- two runs whose internal supported-name lists differ
(`alpha` versus `beta`) return identical records to the caller, so the record
returned by `checkLibraries` cannot contain the three name-list fields the
claim asserts; the source's `CheckResult` carries the four integers only. -/
theorem result_omits_name_lists :
    checkLibraries envDirYes dataAlpha = checkLibraries envDirYes dataBeta
    ∧ resultsOf envDirYes dataAlpha ≠ resultsOf envDirYes dataBeta
    ∧ (resultsOf envDirYes dataAlpha).supported = ["alpha"]
    ∧ (resultsOf envDirYes dataBeta).supported = ["beta"] :=
  ⟨rfl, by decide, rfl, rfl⟩

/-- C2 (amended): the aggregate result returned to the caller is a record
with exactly the four integer fields `total`, `supported`, `notSupported`,
`notFound`, taken from the run's counters; the three per-status name lists
are accumulated internally but are not part of the returned record. -/
theorem result_counts_only (env : NetworkEnv) (d : ParsedData)
    (h : isValidPackageJson d = true) :
    checkLibraries env d = Except.ok
      ⟨(filteredLibs d).length,
       (runChecks env (filteredLibs d)).1.supported,
       (runChecks env (filteredLibs d)).1.notSupported,
       (runChecks env (filteredLibs d)).1.notFound⟩ :=
  checkLibraries_ok env d h

/-- Witness for `result_counts_only` at `envDirYes`, `dataAlpha`. -/
theorem result_counts_only_witness :
    checkLibraries envDirYes dataAlpha = Except.ok
      ⟨(filteredLibs dataAlpha).length,
       (runChecks envDirYes (filteredLibs dataAlpha)).1.supported,
       (runChecks envDirYes (filteredLibs dataAlpha)).1.notSupported,
       (runChecks envDirYes (filteredLibs dataAlpha)).1.notFound⟩ :=
  result_counts_only envDirYes dataAlpha rfl

/-- C3: counterexample -- the directory answers with one record carrying none
of the three flags; the code gives the verdict `notSupported` and stops after
the directory call, whereas the claim demands `notFound` with fall-through to
the Repository Resolver. -/
theorem directory_flagless_not_notFound :
    statusOf envDirNoFlags "lib" = Status.notSupported
    ∧ statusOf envDirNoFlags "lib" ≠ Status.notFound
    ∧ (checkLibraryStatus envDirNoFlags "lib").2 = [ServiceCall.directory "lib"] :=
  ⟨rfl, by decide, rfl⟩

/-- C3 (amended): when the record array is present and non-empty the verdict
is `supported` exactly when the OR of the first record's three flags is true
and `notSupported` otherwise -- including when all three fields are absent;
only an empty or absent record array falls through to the registry lookup. -/
theorem directory_verdict_rule (env : NetworkEnv) (lib : String) :
    (∀ d first rest, env.directory lib = Except.ok d →
        d.libraries = some (first :: rest) →
        (statusOf env lib = Status.supported ↔
          (first.expoGo.getD false || first.newArchitecture.getD false
            || first.githubNewArchitecture.getD false) = true)
        ∧ (statusOf env lib = Status.notSupported ↔
          (first.expoGo.getD false || first.newArchitecture.getD false
            || first.githubNewArchitecture.getD false) = false))
    ∧ (∀ d, env.directory lib = Except.ok d → d.libraries.getD [] = [] →
        ServiceCall.registry lib ∈ (checkLibraryStatus env lib).2) := by
  constructor
  · intro d first rest hd hl
    have hkey := checkLibraryStatus_direct env lib d first rest hd hl
    unfold statusOf
    rw [hkey]
    unfold directoryVerdict
    cases hflag : (first.expoGo.getD false || first.newArchitecture.getD false
        || first.githubNewArchitecture.getD false) <;> simp [hflag]
  · intro d hd hl
    rw [checkLibraryStatus_fallback env lib d hd hl]
    exact registry_in_fallback env lib

/-- Witness for `directory_verdict_rule`: a record whose `expoGo` is true
gives the verdict `supported`. -/
theorem directory_verdict_rule_witness :
    statusOf envDirYes "lib" = Status.supported := by
  have h := (directory_verdict_rule envDirYes "lib").1
      ⟨some [⟨some true, none, none⟩]⟩ ⟨some true, none, none⟩ [] rfl rfl
  exact h.1.mpr rfl

/-- C5: `BRANCHES` fixes the priority order `master` then `main`; whatever
the oracle answers, the first branch attempted is `master`, and when the
`master` fetch fails while `main` succeeds, the classification is computed
from the `main` manifest after both branches were attempted in order. -/
theorem branch_priority_order (env : NetworkEnv) (url : String) :
    BRANCHES = ["master", "main"]
    ∧ (branchesTried env url).head? = some "master"
    ∧ (∀ e pj, env.rawManifest url "master" = Except.error e →
        env.rawManifest url "main" = Except.ok pj →
        checkIfFullJS env url
            = (if hasNativeDeps pj then FullJsResult.native else FullJsResult.fullJs)
        ∧ branchesTried env url = ["master", "main"]) := by
  refine ⟨rfl, ?_, ?_⟩
  · unfold branchesTried BRANCHES
    cases h : env.rawManifest url "master" <;> simp [checkIfFullJSAux, h]
  · intro e pj hm hn
    unfold checkIfFullJS branchesTried BRANCHES
    constructor <;> simp [checkIfFullJSAux, hm, hn]

/-- Witness for `branch_priority_order`: in scenario B the `master` fetch
fails, the `main` manifest has only `lodash`, and the classification is
`fullJs` after trying `master` then `main`. -/
theorem branch_priority_order_witness :
    checkIfFullJS envScenarioB repoScenario = FullJsResult.fullJs
    ∧ branchesTried envScenarioB repoScenario = ["master", "main"] := by
  have h := (branch_priority_order envScenarioB repoScenario).2.2
      "HTTP error! status: 404" ⟨some ["lodash"], none⟩ rfl rfl
  exact ⟨by rw [h.1]; rfl, h.2⟩

/-- C4: every exhausted or failing path of one library's pipeline terminates
in `notFound`: a directory fetch error (caught by the outer catch), an empty
directory answer with no repository reference, and an empty directory answer
whose every candidate branch fails all give `notFound`; a registry error is
caught inside `getGitHubRepoUrl` and surfaces as the absence of a repository
reference, never as a thrown error.  `checkLibraryStatus` is a total function
into verdicts, so no pipeline failure can reach the orchestrator or another
library's task. -/
theorem fallback_exhaustion_notFound (env : NetworkEnv) (lib : String) :
    (∀ e, env.directory lib = Except.error e → statusOf env lib = Status.notFound)
    ∧ (∀ d, env.directory lib = Except.ok d → d.libraries.getD [] = [] →
        getGitHubRepoUrl env lib = none → statusOf env lib = Status.notFound)
    ∧ (∀ d url, env.directory lib = Except.ok d → d.libraries.getD [] = [] →
        getGitHubRepoUrl env lib = some url →
        (∀ b ∈ BRANCHES, ∃ e, env.rawManifest url b = Except.error e) →
        statusOf env lib = Status.notFound)
    ∧ (∀ e, env.registry lib = Except.error e → getGitHubRepoUrl env lib = none) := by
  refine ⟨?_, ?_, ?_, ?_⟩
  · intro e he
    unfold statusOf checkLibraryStatus
    rw [he]
  · intro d hd hl hurl
    unfold statusOf
    rw [checkLibraryStatus_fallback env lib d hd hl]
    unfold fallbackStatus
    rw [hurl]
  · intro d url hd hl hurl hbr
    unfold statusOf
    rw [checkLibraryStatus_fallback env lib d hd hl]
    unfold fallbackStatus
    rw [hurl]
    by_cases hu : url = ""
    · simp [hu]
    · simp [hu, checkIfFullJSAux_allFail env url BRANCHES hbr, RESULT_CATEGORIES]
  · intro e he
    unfold getGitHubRepoUrl
    rw [he]

/-- Witness for `fallback_exhaustion_notFound`: with every service failing,
the verdict is `notFound`. -/
theorem fallback_exhaustion_notFound_witness :
    statusOf envAllFail "left-pad" = Status.notFound :=
  (fallback_exhaustion_notFound envAllFail "left-pad").1 "Timeout" rfl

/-- C6: when the directory answers a name with a non-empty record array, that
name's pipeline performs the directory call only -- the registry and the
raw-manifest services are never invoked -- and the whole outcome is unchanged
under any replacement of the registry and raw-manifest oracles that keeps the
same directory answers. -/
theorem directory_precedence (env env2 : NetworkEnv) (lib : String) (d : LibraryData)
    (first : DirectoryLib) (rest : List DirectoryLib)
    (hd : env.directory lib = Except.ok d) (hl : d.libraries = some (first :: rest))
    (h2 : env2.directory lib = env.directory lib) :
    (checkLibraryStatus env lib).2 = [ServiceCall.directory lib]
    ∧ checkLibraryStatus env2 lib = checkLibraryStatus env lib := by
  have hkey := checkLibraryStatus_direct env lib d first rest hd hl
  have hkey2 := checkLibraryStatus_direct env2 lib d first rest (h2.trans hd) hl
  exact ⟨by rw [hkey], by rw [hkey, hkey2]⟩

/-- Witness for `directory_precedence`: `envDirYesAlt` has answering registry
and raw-manifest oracles yet the outcome equals that of `envDirYes`, whose
pipeline called the directory only. -/
theorem directory_precedence_witness :
    (checkLibraryStatus envDirYes "lib").2 = [ServiceCall.directory "lib"]
    ∧ checkLibraryStatus envDirYesAlt "lib" = checkLibraryStatus envDirYes "lib" :=
  directory_precedence envDirYes envDirYesAlt "lib"
    ⟨some [⟨some true, none, none⟩]⟩ ⟨some true, none, none⟩ [] rfl rfl rfl

/-- C8: a successfully fetched manifest is classified `native` exactly when
some key of the union of its `dependencies` and `devDependencies` key sets
contains the marker `react-native`, and `fullJs` otherwise; `fullJs` maps to
the `supported` bucket and `native` to `notSupported`; a manifest with only
`lodash` yields `supported`, one with `react-native-camera` yields
`notSupported` (scenarios B and C end to end). -/
theorem source_analyzer_classification (env : NetworkEnv) (url : String) (pj : PackageJson)
    (h : env.rawManifest url "master" = Except.ok pj) :
    checkIfFullJS env url
        = (if hasNativeDeps pj then FullJsResult.native else FullJsResult.fullJs)
    ∧ (hasNativeDeps pj = true ↔
        ∃ dep ∈ pj.dependencies.getD [] ++ pj.devDependencies.getD [],
          strContains dep "react-native" = true)
    ∧ RESULT_CATEGORIES FullJsResult.fullJs = Status.supported
    ∧ RESULT_CATEGORIES FullJsResult.native = Status.notSupported
    ∧ hasNativeDeps ⟨some ["lodash"], none⟩ = false
    ∧ hasNativeDeps ⟨some ["react-native-camera"], none⟩ = true
    ∧ statusOf envScenarioB "my-custom-lib" = Status.supported
    ∧ statusOf envScenarioC "some-lib" = Status.notSupported := by
  refine ⟨?_, ?_, rfl, rfl, by decide, by decide, by decide, by decide⟩
  · unfold checkIfFullJS BRANCHES
    simp [checkIfFullJSAux, h]
  · simp only [hasNativeDeps, List.any_eq_true, List.mem_append]

/-- Witness for `source_analyzer_classification` at scenario C's oracle and
manifest. -/
theorem source_analyzer_classification_witness :
    checkIfFullJS envScenarioC repoScenario
        = (if hasNativeDeps ⟨some ["react-native-camera"], none⟩ then FullJsResult.native
           else FullJsResult.fullJs)
    ∧ (hasNativeDeps (⟨some ["react-native-camera"], none⟩ : PackageJson) = true ↔
        ∃ dep ∈ (some ["react-native-camera"] : Option (List String)).getD []
            ++ (none : Option (List String)).getD [],
          strContains dep "react-native" = true)
    ∧ RESULT_CATEGORIES FullJsResult.fullJs = Status.supported
    ∧ RESULT_CATEGORIES FullJsResult.native = Status.notSupported
    ∧ hasNativeDeps ⟨some ["lodash"], none⟩ = false
    ∧ hasNativeDeps ⟨some ["react-native-camera"], none⟩ = true
    ∧ statusOf envScenarioB "my-custom-lib" = Status.supported
    ∧ statusOf envScenarioC "some-lib" = Status.notSupported :=
  source_analyzer_classification envScenarioC repoScenario
    ⟨some ["react-native-camera"], none⟩ rfl

/-- C1: for every oracle and valid parsed manifest, the record returned by
`checkLibraries` satisfies `total = supported + notSupported + notFound`, and
every classified dependency name is a member of exactly one of the three
per-status name lists of the internal `results` record. -/
theorem resolution_partition (env : NetworkEnv) (d : ParsedData)
    (h : isValidPackageJson d = true) :
    ∃ res, checkLibraries env d = Except.ok res
      ∧ res.total = res.supported + res.notSupported + res.notFound
      ∧ ∀ lib ∈ filteredLibs d,
          (lib ∈ (resultsOf env d).supported ∧ lib ∉ (resultsOf env d).notSupported
              ∧ lib ∉ (resultsOf env d).notFound)
          ∨ (lib ∉ (resultsOf env d).supported ∧ lib ∈ (resultsOf env d).notSupported
              ∧ lib ∉ (resultsOf env d).notFound)
          ∨ (lib ∉ (resultsOf env d).supported ∧ lib ∉ (resultsOf env d).notSupported
              ∧ lib ∈ (resultsOf env d).notFound) := by
  refine ⟨_, checkLibraries_ok env d h, ?_, ?_⟩
  · have hl := length_filter_status env (filteredLibs d)
    simp only [runChecks_eq]
    omega
  · intro lib hmem
    unfold resultsOf
    rw [runChecks_eq]
    cases hst : statusOf env lib with
    | supported =>
      refine Or.inl ⟨List.mem_filter.mpr ⟨hmem, by simp [hst]⟩, ?_, ?_⟩ <;>
        · intro hc
          have hpred := (List.mem_filter.mp hc).2
          simp [hst] at hpred
    | notSupported =>
      refine Or.inr (Or.inl ⟨?_, List.mem_filter.mpr ⟨hmem, by simp [hst]⟩, ?_⟩) <;>
        · intro hc
          have hpred := (List.mem_filter.mp hc).2
          simp [hst] at hpred
    | notFound =>
      refine Or.inr (Or.inr ⟨?_, ?_, List.mem_filter.mpr ⟨hmem, by simp [hst]⟩⟩) <;>
        · intro hc
          have hpred := (List.mem_filter.mp hc).2
          simp [hst] at hpred

/-- Witness for `resolution_partition` at `envDirYes`, `dataAlpha`. -/
theorem resolution_partition_witness :
    ∃ res, checkLibraries envDirYes dataAlpha = Except.ok res
      ∧ res.total = res.supported + res.notSupported + res.notFound
      ∧ ∀ lib ∈ filteredLibs dataAlpha,
          (lib ∈ (resultsOf envDirYes dataAlpha).supported
              ∧ lib ∉ (resultsOf envDirYes dataAlpha).notSupported
              ∧ lib ∉ (resultsOf envDirYes dataAlpha).notFound)
          ∨ (lib ∉ (resultsOf envDirYes dataAlpha).supported
              ∧ lib ∈ (resultsOf envDirYes dataAlpha).notSupported
              ∧ lib ∉ (resultsOf envDirYes dataAlpha).notFound)
          ∨ (lib ∉ (resultsOf envDirYes dataAlpha).supported
              ∧ lib ∉ (resultsOf envDirYes dataAlpha).notSupported
              ∧ lib ∈ (resultsOf envDirYes dataAlpha).notFound) :=
  resolution_partition envDirYes dataAlpha rfl

/-- C7: counterexample -- with `react-native` among the dependency keys the
code classifies only the other name: the raw key set has two entries but the
returned total is `1`, and `react-native` appears in none of the name lists,
so the core does perform filtering of its own. -/
theorem core_filters_ignored :
    (dataWithReactNative.dependencies.getD []).length = 2
    ∧ checkLibraries envAllFail dataWithReactNative = Except.ok ⟨1, 0, 0, 1⟩
    ∧ IGNORED_LIBRARIES = ["react-native"]
    ∧ allNames (resultsOf envAllFail dataWithReactNative) = ["axios"] :=
  ⟨rfl, rfl, rfl, rfl⟩

/-- C7 (amended): `checkLibraries` removes exactly the names in
`IGNORED_LIBRARIES` (`["react-native"]`) from the dependency key set before
classifying; every surviving name is classified into some name list and the
returned total is the size of the filtered set. -/
theorem filtered_names_classified (env : NetworkEnv) (d : ParsedData)
    (h : isValidPackageJson d = true) :
    ∃ res, checkLibraries env d = Except.ok res
      ∧ res.total = (filteredLibs d).length
      ∧ (∀ lib ∈ d.dependencies.getD [], lib ∉ IGNORED_LIBRARIES → lib ∈ filteredLibs d)
      ∧ (∀ lib ∈ IGNORED_LIBRARIES, lib ∉ filteredLibs d)
      ∧ (∀ lib ∈ filteredLibs d, lib ∈ allNames (resultsOf env d)) := by
  refine ⟨_, checkLibraries_ok env d h, rfl, ?_, ?_, ?_⟩
  · intro lib hmem hnig
    refine List.mem_filter.mpr ⟨hmem, ?_⟩
    simpa using hnig
  · intro lib hig hmem
    have hpred := (List.mem_filter.mp hmem).2
    simp at hpred
    exact hpred (by simpa using hig)
  · intro lib hmem
    unfold allNames resultsOf
    rw [runChecks_eq]
    simp only [List.mem_append]
    cases hst : statusOf env lib with
    | supported => exact Or.inl (Or.inl (List.mem_filter.mpr ⟨hmem, by simp [hst]⟩))
    | notSupported => exact Or.inl (Or.inr (List.mem_filter.mpr ⟨hmem, by simp [hst]⟩))
    | notFound => exact Or.inr (List.mem_filter.mpr ⟨hmem, by simp [hst]⟩)

/-- Witness for `filtered_names_classified` at `envAllFail`,
`dataWithReactNative`. -/
theorem filtered_names_classified_witness :
    ∃ res, checkLibraries envAllFail dataWithReactNative = Except.ok res
      ∧ res.total = (filteredLibs dataWithReactNative).length
      ∧ (∀ lib ∈ dataWithReactNative.dependencies.getD [],
          lib ∉ IGNORED_LIBRARIES → lib ∈ filteredLibs dataWithReactNative)
      ∧ (∀ lib ∈ IGNORED_LIBRARIES, lib ∉ filteredLibs dataWithReactNative)
      ∧ (∀ lib ∈ filteredLibs dataWithReactNative,
          lib ∈ allNames (resultsOf envAllFail dataWithReactNative)) :=
  filtered_names_classified envAllFail dataWithReactNative rfl

end RNCheck
